import Mathlib

/-!
Verification of the multi-server fleet-management layer of the 3x-UI-agents
repository, as a shallow embedding in Lean 4.

The embedding follows the Go source:
  * `database/model` structs (Server, Inbound) — node registry records;
  * `web/service` ServerManagementService — registry CRUD and the connector
    factory GetConnector;
  * `web/service` RemoteConnector construction (NewRemoteConnector,
    createMTLSClient, createJWTClient) — parameterised over the external
    crypto and file-system primitives it calls;
  * `web/job/server_health_job.go` — health-monitor configuration, the
    bounded worker pool, the per-node failure counter and the status writes;
  * `agent/api/router.go` and `agent/middleware/middleware.go` — the agent
    TLS server configuration, the mTLS middleware and the token-bucket
    rate limiter.

The record store is modelled as in-memory lists (the source treats storage
as a keyed record store); external library calls (PEM and X.509 parsing,
file reads, JSON unmarshalling) are modelled as explicit oracle parameters
so that the control flow of the Go functions is reproduced exactly.
-/

namespace ThreeXUI

/-- database/model Server struct (part_001): a managed node record.
All columns of the Go struct are carried. -/
structure Server where
  id : Int
  name : String
  endpoint : String
  region : String
  tags : String
  authType : String
  authData : String
  status : String
  lastSeen : Int
  lastError : String
  version : String
  xrayVersion : String
  osInfo : String
  enabled : Bool
  notes : String
  createdAt : Int
  updatedAt : Int
deriving Repr, DecidableEq

/-- database/model Inbound struct (part_001), restricted to the columns the
claims touch: the primary key and the owning node id (server_id).
The remaining columns (traffic counters, xray settings) never influence
the registry operations under study. -/
structure Inbound where
  id : Int
  serverId : Int
deriving Repr, DecidableEq

/-- The keyed record store consumed by ServerManagementService: the servers
table and the inbounds table. -/
structure DB where
  servers : List Server
  inbounds : List Inbound
deriving Repr, DecidableEq

/-- Helper: a server record with zero values everywhere, to be updated with
the fields a test input needs (Go zero-value semantics for struct literals). -/
def mkServer : Server :=
  { id := 0, name := "", endpoint := "", region := "", tags := ""
  , authType := "", authData := "", status := "", lastSeen := 0
  , lastError := "", version := "", xrayVersion := "", osInfo := ""
  , enabled := false, notes := "", createdAt := 0, updatedAt := 0 }

/-- ServerManagementService.GetServer (part_013): db.First(server, id) —
the unique record with the given primary key, or a lookup error. -/
def GetServer (db : DB) (id : Int) : Except String Server :=
  match db.servers.find? (fun s => s.id = id) with
  | some s => .ok s
  | none => .error "failed to get server: record not found"

/-- The connector value returned by the factory. The factory in the source
only ever returns NewLocalConnector(serverId) (the remote arm returns an
error), so a local connector carrying its node id is the only inhabitant
produced. -/
inductive Connector where
  | localConn (serverId : Int)
deriving Repr, DecidableEq

/-- ServerManagementService.GetConnector (part_013 lines 305-320): looks up
the node; auth type "local" yields NewLocalConnector(serverId); any other
auth type returns the error "remote connectors not yet implemented". -/
def GetConnector (db : DB) (serverId : Int) : Except String Connector :=
  match GetServer db serverId with
  | .error e => .error e
  | .ok server =>
    if server.authType = "local" then
      .ok (.localConn serverId)
    else
      .error "remote connectors not yet implemented"

/-- Owned managed records of a node: inbounds with server_id = id
(the count the source takes before deletion). -/
def ownedInboundCount (db : DB) (id : Int) : Nat :=
  (db.inbounds.filter (fun i => i.serverId = id)).length

/-- ServerManagementService.DeleteServer (part_013 lines 224-247):
refuses id 1; refuses while owned inbounds exist; otherwise deletes the
record by primary key. Returned pair: the error (if any) and the resulting
store — on error the store is returned untouched, matching the source
where the early returns precede any write. -/
def DeleteServer (db : DB) (id : Int) : Option String × DB :=
  if id = 1 then
    (some "cannot delete local server", db)
  else
    if ownedInboundCount db id > 0 then
      (some "cannot delete server with existing inbounds", db)
    else
      (none, { db with servers := db.servers.filter (fun s => s.id ≠ id) })

/-- ServerManagementService.AddServer (part_013 lines 187-207): stamps
created/updated timestamps, defaults status to "pending" when empty, and
inserts the record. -/
def AddServer (db : DB) (server : Server) (now : Int) : DB :=
  let server := { server with createdAt := now, updatedAt := now }
  let server :=
    if server.status = "" then { server with status := "pending" } else server
  { db with servers := db.servers ++ [server] }

/-- ServerManagementService.UpdateServerStatus (part_013 lines 249-271):
for the row with the given id, writes status, last_seen := now,
updated_at := now, and last_error := lastError when non-empty, else the
empty string. -/
def UpdateServerStatus (db : DB) (id : Int) (status lastError : String)
    (now : Int) : DB :=
  let newLastError := if lastError ≠ "" then lastError else ""
  { db with servers := db.servers.map (fun s =>
      if s.id = id then
        { s with status := status, lastSeen := now, updatedAt := now, lastError := newLastError }
      else s) }

/-- ServerManagementService.UpdateServerMetadata (part_013 lines 273-290):
for the row with the given id, writes version, xray_version, os_info and
updated_at; status, last_seen and last_error are untouched. -/
def UpdateServerMetadata (db : DB) (id : Int)
    (version xrayVersion osInfo : String) (now : Int) : DB :=
  { db with servers := db.servers.map (fun s =>
      if s.id = id then
        { s with version := version, xrayVersion := xrayVersion, osInfo := osInfo, updatedAt := now }
      else s) }

/-! ## Agent control-plane server: TLS configuration and middleware
(src/agent/api/router.go, src/agent/middleware/middleware.go) -/

/-- Go crypto/tls ClientAuthType values. The zero value is noClientCert. -/
inductive ClientAuthType where
  | noClientCert
  | requestClientCert
  | requireAnyClientCert
  | verifyClientCertIfGiven
  | requireAndVerifyClientCert
deriving Repr, DecidableEq

/-- Go tls.VersionTLS13 = 0x0304. -/
def versionTLS13 : Nat := 772

/-- Go tls.TLS_AES_128_GCM_SHA256 = 0x1301. -/
def tlsAES128GCMSHA256 : Nat := 4865

/-- Go tls.TLS_AES_256_GCM_SHA384 = 0x1302. -/
def tlsAES256GCMSHA384 : Nat := 4866

/-- Go tls.TLS_CHACHA20_POLY1305_SHA256 = 0x1303. -/
def tlsCHACHA20POLY1305SHA256 : Nat := 4867

/-- The fields of Go tls.Config that startTLSServer touches, plus the two
client-authentication fields (ClientAuth, ClientCAs) whose Go zero values
are NoClientCert and nil. -/
structure TLSConfig where
  hasServerCertificate : Bool
  minVersion : Nat
  cipherSuites : List Nat
  clientAuth : ClientAuthType
  clientCAs : Option String
deriving Repr, DecidableEq

/-- startTLSServer (router.go lines 120-148): loads the server key pair
(modelled by the loadOk flag for tls.LoadX509KeyPair) and builds the TLS
configuration. The source sets only Certificates, MinVersion and
CipherSuites; ClientAuth and ClientCAs are left at their Go zero values. -/
def startTLSServerTLSConfig (loadOk : Bool) : Except String TLSConfig :=
  if loadOk = false then
    .error "failed to load server certificate"
  else
    .ok { hasServerCertificate := true
        , minVersion := versionTLS13
        , cipherSuites := [tlsAES128GCMSHA256, tlsAES256GCMSHA384, tlsCHACHA20POLY1305SHA256]
        , clientAuth := .noClientCert
        , clientCAs := none }

/-- Go crypto/tls server handshake behaviour: the handshake itself rejects
a connection that presents no client certificate only under
requireAnyClientCert or requireAndVerifyClientCert; under the other values
(including the zero value noClientCert) the handshake completes and the
request reaches the HTTP handler chain. -/
def handshakeRequiresClientCert : ClientAuthType → Bool
  | .requireAnyClientCert => true
  | .requireAndVerifyClientCert => true
  | _ => false

/-- Go crypto/tls server handshake behaviour: the presented client
certificate is verified against ClientCAs during the handshake only under
verifyClientCertIfGiven or requireAndVerifyClientCert. -/
def handshakeVerifiesClientCert : ClientAuthType → Bool
  | .verifyClientCertIfGiven => true
  | .requireAndVerifyClientCert => true
  | _ => false

/-- A presented client certificate, reduced to the field the middleware
reads (Subject.CommonName). -/
structure PeerCert where
  cn : String
deriving Repr, DecidableEq

/-- Outcome of a Gin middleware handler: either the chain continues
(for MTLSAuth, after c.Set("client_cn", cn)), or the request is aborted
with an HTTP status and an error code — an HTTP response, produced after
the TLS handshake has already succeeded. -/
inductive MWResult where
  | next (clientCN : String)
  | abortJSON (httpStatus : Nat) (code : String)
deriving Repr, DecidableEq

/-- MTLSAuth middleware (middleware.go lines 17-88). caLoadOk models the
setup-time tls.LoadX509KeyPair(caFile, caFile) call; verifyOk models
x509 certificate verification against the CA pool; reqTLS is
c.Request.TLS — none for a non-TLS request, otherwise the list of peer
certificates from the handshake. -/
def MTLSAuthHandle (caLoadOk : Bool) (verifyOk : PeerCert → Bool)
    (reqTLS : Option (List PeerCert)) : MWResult :=
  if caLoadOk = false then
    .abortJSON 500 "MTLS_SETUP_ERROR"
  else
    match reqTLS with
    | none => .abortJSON 401 "TLS_REQUIRED"
    | some peerCerts =>
      match peerCerts with
      | [] => .abortJSON 401 "CLIENT_CERT_REQUIRED"
      | clientCert :: _ =>
        if verifyOk clientCert then .next clientCert.cn
        else .abortJSON 401 "CERT_VERIFICATION_FAILED"

/-! ## Token-bucket rate limiter (middleware.go lines 174-276) -/

/-- tokenBucket struct: tokens (Go int) and lastRefill (a monotonic clock
reading, modelled in nanoseconds). -/
structure TokenBucket where
  tokens : Int
  lastRefill : Nat
deriving Repr, DecidableEq

/-- RateLimiter struct: the per-minute limit and the per-caller bucket map
(modelled as an association list). -/
structure RateLimiter where
  limit : Int
  buckets : List (String × TokenBucket)
deriving Repr, DecidableEq

/-- NewRateLimiter: empty bucket map with the given requests-per-minute
limit. -/
def NewRateLimiter (requestsPerMinute : Int) : RateLimiter :=
  { limit := requestsPerMinute, buckets := [] }

/-- Bucket lookup in the map. -/
def lookupBucket (buckets : List (String × TokenBucket)) (key : String) :
    Option TokenBucket :=
  (buckets.find? (fun p => p.1 = key)).map (fun p => p.2)

/-- Map write: replace the bucket stored under the key. -/
def setBucket (buckets : List (String × TokenBucket)) (key : String)
    (b : TokenBucket) : List (String × TokenBucket) :=
  buckets.map (fun p => if p.1 = key then (key, b) else p)

/-- Nanoseconds in one minute, the refill interval unit: elapsed.Minutes()
in the source is elapsed nanoseconds divided by this constant. -/
def nanosPerMinute : Nat := 60000000000

/-- RateLimiter.allow (middleware.go lines 236-271): fetch or create the
bucket (a fresh bucket starts full, tokens = limit); compute
tokensToAdd = int(elapsed.Minutes() * limit), a truncated (Go int
conversion) product of elapsed minutes and the limit, modelled with exact
integer arithmetic; when positive, refill capped at the limit and move
lastRefill forward; finally spend one token when one is available. Returns
the decision and the updated limiter. -/
def RateLimiter.allow (rl : RateLimiter) (key : String) (now : Nat) :
    Bool × RateLimiter :=
  let found := lookupBucket rl.buckets key
  let bucket : TokenBucket :=
    match found with
    | some b => b
    | none => { tokens := rl.limit, lastRefill := now }
  let buckets0 :=
    match found with
    | some _ => rl.buckets
    | none => rl.buckets ++ [(key, bucket)]
  let elapsed : Nat := now - bucket.lastRefill
  let tokensToAdd : Int := ((elapsed : Int) * rl.limit).tdiv (nanosPerMinute : Int)
  let bucket :=
    if tokensToAdd > 0 then
      let t := bucket.tokens + tokensToAdd
      let t := if t > rl.limit then rl.limit else t
      { tokens := t, lastRefill := now }
    else bucket
  if bucket.tokens > 0 then
    (true, { rl with buckets := setBucket buckets0 key { bucket with tokens := bucket.tokens - 1 } })
  else
    (false, { rl with buckets := setBucket buckets0 key bucket })

/-- Outcome of the rate-limiter middleware for one request. -/
inductive RLResult where
  | allowed
  | rejected (httpStatus : Nat) (code : String)
deriving Repr, DecidableEq

/-- RateLimiter.Middleware (middleware.go lines 216-234): keyed by caller
IP; a denied request is aborted with HTTP 429 and code
RATE_LIMIT_EXCEEDED, otherwise the chain continues. -/
def RateLimiter.handle (rl : RateLimiter) (clientIP : String) (now : Nat) :
    RLResult × RateLimiter :=
  let res := rl.allow clientIP now
  if res.1 = false then
    (.rejected 429 "RATE_LIMIT_EXCEEDED", res.2)
  else
    (.allowed, res.2)

/-! ## Remote connector construction
(part_012: NewRemoteConnector, createMTLSClient, createJWTClient,
doRequest) -/

/-- The authData JSON fields recognised by createMTLSClient (part_012):
file paths or inlined PEM contents; absent fields unmarshal to "". -/
structure MTLSAuthFields where
  certFile : String
  keyFile : String
  caFile : String
  certPem : String
  keyPem : String
  caPem : String
deriving Repr, DecidableEq

/-- MTLSAuthFields with every field empty (the Go zero struct, which
best-effort json.Unmarshal leaves behind on failure). -/
def emptyMTLSAuthFields : MTLSAuthFields :=
  { certFile := "", keyFile := "", caFile := ""
  , certPem := "", keyPem := "", caPem := "" }

/-- The external primitives createMTLSClient and createJWTClient call,
as oracle parameters: PEM and X.509 parsing, file reads, PEM-bundle
splitting and JSON unmarshalling. Bool results mean the call succeeds. -/
structure CryptoEnv where
  x509KeyPair : String → String → Bool
  loadX509KeyPair : String → String → Bool
  appendCertsFromPEM : String → Bool
  readFile : String → Option String
  splitPEMBundle : String → String × String × String
  unmarshalMTLS : String → MTLSAuthFields
  unmarshalToken : String → Option String

/-- The fields of the constructed Go http.Client the contract calls use:
the shared 30-second client timeout and, for the mTLS client, the pinned
minimum TLS version of its transport. -/
structure HTTPClientModel where
  timeoutSec : Nat
  tlsMinVersion : Option Nat
deriving Repr, DecidableEq

/-- createMTLSClient, inlined-PEM client-certificate block (part_012 lines
94-100): a non-empty certPem/keyPem pair must parse or construction
fails; the returned flag tells whether the client certificate is now
resolved. -/
def inlineCertStage (env : CryptoEnv) (ad : MTLSAuthFields) : Except String Bool :=
  if ad.certPem ≠ "" ∧ ad.keyPem ≠ "" then
    if env.x509KeyPair ad.certPem ad.keyPem then .ok true
    else .error "failed to parse inlined client certificate"
  else .ok false

/-- createMTLSClient, inlined-PEM CA block (part_012 lines 102-107). -/
def inlineCAStage (env : CryptoEnv) (ad : MTLSAuthFields) : Except String Bool :=
  if ad.caPem ≠ "" then
    if env.appendCertsFromPEM ad.caPem then .ok true
    else .error "failed to parse inlined CA certificate"
  else .ok false

/-- createMTLSClient, file-path client-certificate block (part_012 lines
110-116): tried only when the certificate is not yet resolved. -/
def filePairStage (env : CryptoEnv) (ad : MTLSAuthFields) (cert : Bool) :
    Except String Bool :=
  if cert = false ∧ ad.certFile ≠ "" ∧ ad.keyFile ≠ "" then
    if env.loadX509KeyPair ad.certFile ad.keyFile then .ok true
    else .error "failed to load client certificate"
  else .ok cert

/-- createMTLSClient, file-path CA block (part_012 lines 118-127). -/
def fileCAStage (env : CryptoEnv) (ad : MTLSAuthFields) (caCertPool : Bool) :
    Except String Bool :=
  if caCertPool = false ∧ ad.caFile ≠ "" then
    match env.readFile ad.caFile with
    | none => .error "failed to load CA certificate"
    | some caData =>
      if env.appendCertsFromPEM caData then .ok true
      else .error "failed to parse CA certificate"
  else .ok caCertPool

/-- createMTLSClient, pasted-PEM-bundle block (part_012 lines 129-148):
entered when either piece is still missing; the bundle is split into
certificate, key and CA parts by PEM block type. -/
def bundleStage (env : CryptoEnv) (raw : String) (cert caCertPool : Bool) :
    Except String (Bool × Bool) :=
  if cert = false ∨ caCertPool = false then
    let parts := env.splitPEMBundle raw
    let certPEM := parts.1
    let keyPEM := parts.2.1
    let caPEM := parts.2.2
    if certPEM ≠ "" ∧ keyPEM ≠ "" then
      if env.x509KeyPair certPEM keyPEM then
        if caPEM ≠ "" then
          if env.appendCertsFromPEM caPEM then .ok (true, true)
          else .error "failed to parse pasted CA certificate"
        else .ok (true, caCertPool)
      else .error "failed to parse pasted client cert/key"
    else
      if caPEM ≠ "" then
        if env.appendCertsFromPEM caPEM then .ok (cert, true)
        else .error "failed to parse pasted CA certificate"
      else .ok (cert, caCertPool)
  else .ok (cert, caCertPool)

/-- createMTLSClient, final checks and client construction (part_012 lines
150-172): both pieces must be resolved; the client carries the shared
30-second timeout and a transport pinned to TLS 1.3 minimum. -/
def mtlsFinalize (cert caCertPool : Bool) : Except String HTTPClientModel :=
  if cert = false then
    .error "invalid mTLS auth data: client cert/key not provided"
  else if caCertPool = false then
    .error "invalid mTLS auth data: CA certificate not provided"
  else
    .ok { timeoutSec := 30, tlsMinVersion := some versionTLS13 }

/-- createMTLSClient (part_012 lines 72-173): best-effort unmarshal of the
auth data, then the stages in source order — inlined PEM, file paths,
pasted bundle, final checks. Every failure is a construction-time error. -/
def createMTLSClient (env : CryptoEnv) (raw : String) : Except String HTTPClientModel :=
  let ad := env.unmarshalMTLS raw
  match inlineCertStage env ad with
  | .error e => .error e
  | .ok cert =>
    match inlineCAStage env ad with
    | .error e => .error e
    | .ok caCertPool =>
      match filePairStage env ad cert with
      | .error e => .error e
      | .ok cert =>
        match fileCAStage env ad caCertPool with
        | .error e => .error e
        | .ok caCertPool =>
          match bundleStage env raw cert caCertPool with
          | .error e => .error e
          | .ok (cert, caCertPool) => mtlsFinalize cert caCertPool

/-- createJWTClient token resolution (part_012 lines 203-215): the JSON
token field when unmarshalling succeeds with a non-empty token, otherwise
the whole raw auth data. -/
def jwtTokenOf (env : CryptoEnv) (raw : String) : String :=
  match env.unmarshalToken raw with
  | some t => if t ≠ "" then t else raw
  | none => raw

/-- createJWTClient (part_012 lines 200-227): an empty resolved token is
a construction-time error; otherwise the client is a plain HTTPS client
with the shared 30-second timeout. -/
def createJWTClient (env : CryptoEnv) (raw : String) :
    Except String (HTTPClientModel × String) :=
  let token := jwtTokenOf env raw
  if token = "" then .error "JWT token is required in auth data"
  else .ok ({ timeoutSec := 30, tlsMinVersion := none }, token)

/-- RemoteConnector struct (part_012 lines 22-29). -/
structure RemoteConnector where
  serverId : Int
  endpoint : String
  authType : String
  jwtToken : String
  httpClient : HTTPClientModel
deriving Repr, DecidableEq

/-- NewRemoteConnector (part_012 lines 46-70): dispatch on the auth
type; client-construction failures are wrapped and returned at
construction time; an unknown auth type is rejected. -/
def NewRemoteConnector (env : CryptoEnv) (server : Server) :
    Except String RemoteConnector :=
  if server.authType = "mtls" then
    match createMTLSClient env server.authData with
    | .error e => .error ("failed to create HTTP client: " ++ e)
    | .ok client =>
      .ok { serverId := server.id, endpoint := server.endpoint
          , authType := server.authType, jwtToken := "", httpClient := client }
  else if server.authType = "jwt" then
    match createJWTClient env server.authData with
    | .error e => .error ("failed to create HTTP client: " ++ e)
    | .ok res =>
      .ok { serverId := server.id, endpoint := server.endpoint
          , authType := server.authType, jwtToken := res.2, httpClient := res.1 }
  else
    .error ("unsupported auth type: " ++ server.authType)

/-- The contract operations RemoteConnector implements (part_012 lines
280-611), each translated by doRequest into one HTTP request. -/
inductive RemoteOp where
  | getServerInfo | getHealth
  | listInbounds | getInbound | addInbound | updateInbound | deleteInbound
  | addClient | updateClient | deleteClient | resetClientTraffic
  | getOnlineClients
  | getTraffic | getClientTraffics
  | startXray | stopXray | restartXray | getXrayVersion | getXrayConfig
  | getSystemStats | getLogs | updateGeoFiles | installXray
  | generateCert | getCerts | backupDatabase | restoreDatabase
deriving Repr, DecidableEq

/-- The client-side deadline doRequest (part_012 lines 229-278) applies to
an operation: the shared http.Client timeout of the connector — doRequest
sets no per-operation deadline of its own, so every operation class gets
the same bound from the executor. -/
def doRequestTimeoutSec (client : HTTPClientModel) (_ : RemoteOp) : Nat :=
  client.timeoutSec

/-! ## Health monitor (src/web/job/server_health_job.go) -/

/-- Digit-string parsing used by atoi: every character must be a decimal
digit; the empty list is rejected. -/
def parseDigits : List Char → Option Nat
  | [] => none
  | cs =>
    cs.foldl
      (fun acc c =>
        match acc with
        | none => none
        | some n => if c.isDigit then some (n * 10 + (c.toNat - 48)) else none)
      (some 0)

/-- strconv.Atoi: optional sign followed by decimal digits; anything else
is an error (overflow is out of scope for the configuration values under
study). -/
def atoi (s : String) : Option Int :=
  match s.data with
  | [] => none
  | c :: rest =>
    if c = '-' then (parseDigits rest).map (fun n => -(n : Int))
    else if c = '+' then (parseDigits rest).map (fun n => (n : Int))
    else (parseDigits (c :: rest)).map (fun n => (n : Int))

/-- HealthConfig (server_health_job.go lines 17-22); durations carried in
seconds. -/
structure HealthConfig where
  maxConcurrency : Nat
  checkTimeoutSec : Nat
  infoTimeoutSec : Nat
deriving Repr, DecidableEq

/-- loadHealthConfig (server_health_job.go lines 24-45): defaults 10
concurrent checks, 10 s check timeout, 5 s info timeout; the concurrency
override is accepted only when 0 < n ≤ 100, the timeout override only
when 0 < n. env models os.Getenv (empty string when unset). -/
def loadHealthConfig (env : String → String) : HealthConfig :=
  let cfg : HealthConfig :=
    { maxConcurrency := 10, checkTimeoutSec := 10, infoTimeoutSec := 5 }
  let cfg :=
    let val := env "HEALTH_MAX_CONCURRENCY"
    if val ≠ "" then
      match atoi val with
      | some n => if n > 0 ∧ n ≤ 100 then { cfg with maxConcurrency := n.toNat } else cfg
      | none => cfg
    else cfg
  let cfg :=
    let val := env "HEALTH_TIMEOUT_SEC"
    if val ≠ "" then
      match atoi val with
      | some n => if n > 0 then { cfg with checkTimeoutSec := n.toNat } else cfg
      | none => cfg
    else cfg
  cfg

/-- State of one health-check cycle of Run (server_health_job.go lines
105-159): how many worker goroutines are still before the semaphore send,
between acquire and release (the health check in flight), and finished,
plus the occupancy of the buffered semaphore channel. -/
structure PoolState where
  waiting : Nat
  running : Nat
  done : Nat
  sem : Nat
deriving Repr, DecidableEq

/-- Cycle start: one goroutine per remote server, none started, channel
empty. -/
def initPool (n : Nat) : PoolState :=
  { waiting := n, running := 0, done := 0, sem := 0 }

/-- Interleaving semantics of the worker pool: a waiting goroutine may
send into the semaphore channel only while fewer than cap slots are taken
(buffered-channel send blocks otherwise) and then runs its check; a
running goroutine may finish and release its slot. -/
inductive PoolStep (cap : Nat) : PoolState → PoolState → Prop
  | acquire (s : PoolState) (h1 : 0 < s.waiting) (h2 : s.sem < cap) :
      PoolStep cap s
        { waiting := s.waiting - 1, running := s.running + 1
        , done := s.done, sem := s.sem + 1 }
  | release (s : PoolState) (h : 0 < s.running) :
      PoolStep cap s
        { waiting := s.waiting, running := s.running - 1
        , done := s.done + 1, sem := s.sem - 1 }

/-- States a cycle with n remote servers can reach under bound cap. -/
def PoolReachable (cap n : Nat) : PoolState → Prop :=
  Relation.ReflTransGen (PoolStep cap) (initPool n)

/-- recordFailure (server_health_job.go lines 211-215): Go map increment;
an absent key reads as zero. The counter map is modelled as a total
function with default 0. -/
def recordFailure (failures : Int → Nat) (serverId : Int) : Int → Nat :=
  fun k => if k = serverId then failures k + 1 else failures k

/-- resetFailure (server_health_job.go lines 218-222): delete from the
map, so the key reads as zero afterwards. -/
def resetFailure (failures : Int → Nat) (serverId : Int) : Int → Nat :=
  fun k => if k = serverId then 0 else failures k

/-- The three ways one checkServer call can go (server_health_job.go
lines 166-208): the connector factory fails; GetHealth fails; GetHealth
succeeds with a reported status and versions. info carries the optional
GetServerInfo result of refreshServerInfo as (version, xrayVersion,
osInfoJson) — none when that extra call fails or is not made. -/
inductive CheckOutcome where
  | connectorError (msg : String)
  | healthError (msg : String)
  | healthOk (status version xrayVersion : String)
      (info : Option (String × String × String))
deriving Repr, DecidableEq

/-- The failure-counter transition of one checkServer call: incremented on
either failure path, reset on the success path, and only then. -/
def checkServerFailures (failures : Int → Nat) (serverId : Int) :
    CheckOutcome → (Int → Nat)
  | .connectorError _ => recordFailure failures serverId
  | .healthError _ => recordFailure failures serverId
  | .healthOk _ _ _ _ => resetFailure failures serverId

/-- The status string checkServer returns for the cycle metrics. -/
def checkServerResult : CheckOutcome → String
  | .connectorError _ => "error"
  | .healthError _ => "offline"
  | .healthOk status _ _ _ => status

/-- The registry writes of one checkServer call (server_health_job.go
lines 166-208): a status write on every path — "error" with the wrapped
connector error, "offline" with the wrapped health error, or the reported
status with an empty last-error — then, on success, the metadata write
when the health response carries versions (updateServerMetadata re-reads
the row to preserve os_info) and the refreshServerInfo metadata write
when the record had no version yet. server is the record the cycle
fetched before the check. -/
def checkServerDB (db : DB) (server : Server) (o : CheckOutcome) (now : Int) : DB :=
  match o with
  | .connectorError msg =>
    UpdateServerStatus db server.id "error" ("Failed to create connector: " ++ msg) now
  | .healthError msg =>
    UpdateServerStatus db server.id "offline" ("Health check failed: " ++ msg) now
  | .healthOk status version xrayVersion info =>
    let db := UpdateServerStatus db server.id status "" now
    let db :=
      if version ≠ "" ∨ xrayVersion ≠ "" then
        match GetServer db server.id with
        | .ok cur => UpdateServerMetadata db server.id version xrayVersion cur.osInfo now
        | .error _ => db
      else db
    if server.version = "" ∨ server.xrayVersion = "" then
      match info with
      | some res => UpdateServerMetadata db server.id res.1 res.2.1 res.2.2 now
      | none => db
    else db

/-! ## Server management controller (part_011) -/

/-- ServerManagementController.AddServer input validation (part_011 lines
183-221): name and endpoint must be non-empty and the auth type one of
mtls, jwt, local. No other field — in particular the auth material — is
examined. Returns the rejection message, if any. -/
def controllerValidateAddServer (server : Server) : Option String :=
  if server.name = "" then some "Server name is required"
  else if server.endpoint = "" then some "Server endpoint is required"
  else if server.authType ≠ "mtls" ∧ server.authType ≠ "jwt" ∧ server.authType ≠ "local" then
    some "Invalid auth type (must be: mtls, jwt, or local)"
  else none

/-- ServerManagementController.AddServer (part_011 lines 183-221): after
validation, default the status to "pending" and store through
ServerManagementService.AddServer. -/
def controllerAddServer (db : DB) (server : Server) (now : Int) : Except String DB :=
  match controllerValidateAddServer server with
  | some msg => .error msg
  | none =>
    let server :=
      if server.status = "" then { server with status := "pending" } else server
    .ok (AddServer db server now)

/-! ## Theorems -/

/-- True exactly when the operation succeeded (err == nil in the Go
caller). -/
def exOk {α : Type} : Except String α → Bool
  | .ok _ => true
  | .error _ => false

/-- The permanent local node record. -/
def localNode : Server :=
  { mkServer with
      id := 1
      name := "Default Local Server"
      endpoint := "local"
      authType := "local"
      status := "online"
      enabled := true }

/-- A remote mutual-TLS node record with stored auth material. -/
def remoteNodeA : Server :=
  { mkServer with
      id := 2
      name := "remote-a"
      endpoint := "https://remote-a:2054"
      authType := "mtls"
      authData := "PEM bundle with client certificate, key and CA"
      enabled := true }

/-- Registry used to evaluate the connector factory: the local node and a
remote mutual-TLS node. -/
def dbC1 : DB :=
  { servers := [localNode, remoteNodeA], inbounds := [] }

/-- C1: the factory resolves the local node to a Local Executor, but for a
node whose auth kind is mutual-TLS (or any non-local kind) it does not
construct a Remote Executor: it returns the error
"remote connectors not yet implemented" — the remote arm of the factory
is a stub even though NewRemoteConnector exists in the same package. -/
theorem c1_getConnector_remote_is_stub :
    GetConnector dbC1 1 = .ok (.localConn 1) ∧
    GetConnector dbC1 2 = .error "remote connectors not yet implemented" := by
  constructor <;> rfl

/-- A remote bearer-token node record. -/
def remoteNodeB : Server :=
  { mkServer with
      id := 3
      name := "remote-b"
      endpoint := "https://remote-b:2054"
      authType := "jwt"
      authData := "shared-token"
      enabled := true }

/-- Fleet used for the deletion witness: the local node, a node with one
owned inbound (id 2), and a node with none (id 3). -/
def dbC3 : DB :=
  { servers := [localNode, remoteNodeA, remoteNodeB]
  , inbounds := [{ id := 10, serverId := 2 }] }

/-- C3: on every fleet state, deleting the permanent local node (id 1)
fails and leaves the registry unchanged; deleting any other node that
still owns at least one managed record (inbound with server_id = n) fails
and leaves the registry unchanged; and deleting any other node that owns
none succeeds and removes exactly its record. -/
theorem c3_DeleteServer_spec (db : DB) (n : Int) :
    DeleteServer db 1 = (some "cannot delete local server", db) ∧
    (n ≠ 1 → 0 < ownedInboundCount db n →
      DeleteServer db n = (some "cannot delete server with existing inbounds", db)) ∧
    (n ≠ 1 → ownedInboundCount db n = 0 →
      DeleteServer db n =
        (none, { db with servers := db.servers.filter (fun s => s.id ≠ n) })) := by
  refine ⟨by simp [DeleteServer], fun h1 h2 => ?_, fun h1 h2 => ?_⟩
  · simp [DeleteServer, h1, h2]
  · simp [DeleteServer, h1, h2]

/-- Witness for C3 on the concrete fleet dbC3: id 1 refused, id 2 (owner
of an inbound) refused, id 3 (no owned records) deleted. -/
theorem c3_DeleteServer_spec_witness :
    DeleteServer dbC3 1 = (some "cannot delete local server", dbC3) ∧
    DeleteServer dbC3 2 = (some "cannot delete server with existing inbounds", dbC3) ∧
    DeleteServer dbC3 3 =
      (none, { dbC3 with servers := dbC3.servers.filter (fun s => s.id ≠ 3) }) := by
  exact ⟨(c3_DeleteServer_spec dbC3 2).1,
    (c3_DeleteServer_spec dbC3 2).2.1 (by decide) (by decide),
    (c3_DeleteServer_spec dbC3 3).2.2 (by decide) (by decide)⟩

/-- A mutual-TLS node submission whose CA field (indeed all auth material)
is empty. -/
def c5MTLSNodeNoCA : Server :=
  { mkServer with
      name := "remote-c"
      endpoint := "https://remote-c:2054"
      authType := "mtls"
      authData := ""
      enabled := true }

/-- The add-node validation passes exactly when the name and endpoint are
non-empty and the auth kind is a known one. -/
theorem controllerValidateAddServer_none_iff (server : Server) :
    controllerValidateAddServer server = none ↔
      (server.name ≠ "" ∧ server.endpoint ≠ "" ∧
        (server.authType = "mtls" ∨ server.authType = "jwt" ∨ server.authType = "local")) := by
  unfold controllerValidateAddServer
  split_ifs with h1 h2 h3 <;> simp_all
  all_goals tauto

/-- C5 counterexample: the add-node operation accepts a mutual-TLS node
with empty auth material — it is stored (status defaulted to "pending"),
not rejected with an InvalidInput error, because AddServer validates only
name, endpoint and the auth-type string. -/
theorem c5_addServer_accepts_mtls_without_ca :
    exOk (controllerAddServer { servers := [localNode], inbounds := [] } c5MTLSNodeNoCA 100)
      = true ∧
    controllerValidateAddServer c5MTLSNodeNoCA = none := by
  constructor <;> rfl

/-- C5 amended: the add-node operation rejects a submission exactly when
the name is empty, the endpoint is empty, or the auth kind is not one of
mtls, jwt, local; the stored auth material is never examined, so nodes
with auth kinds that require material are accepted with empty material
and the invalid material only surfaces later, at executor construction. -/
theorem c5_addServer_validation_characterisation (db : DB) (server : Server) (now : Int) :
    (exOk (controllerAddServer db server now) = true ↔
      (server.name ≠ "" ∧ server.endpoint ≠ "" ∧
        (server.authType = "mtls" ∨ server.authType = "jwt" ∨ server.authType = "local"))) ∧
    controllerValidateAddServer server =
      controllerValidateAddServer { server with authData := "" } := by
  constructor
  · rw [← controllerValidateAddServer_none_iff]
    unfold controllerAddServer
    cases h : controllerValidateAddServer server with
    | some msg => simp [h, exOk]
    | none => simp [h, exOk]
  · rfl

/-- The TLS configuration the mTLS variant of the agent server is started
with (the ok branch of startTLSServerTLSConfig). -/
def agentTLSConfig : TLSConfig :=
  { hasServerCertificate := true
  , minVersion := versionTLS13
  , cipherSuites := [tlsAES128GCMSHA256, tlsAES256GCMSHA384, tlsCHACHA20POLY1305SHA256]
  , clientAuth := .noClientCert
  , clientCAs := none }

/-- C2: the mTLS agent server leaves ClientAuth at its zero value
noClientCert and configures no ClientCAs, so the TLS handshake neither
requires nor verifies a client certificate; a request without a client
certificate (or with an unverifiable one) completes the handshake and is
answered by the MTLSAuth application middleware with an HTTP 401 JSON
response — not rejected at the TLS layer. -/
theorem c2_mtls_not_enforced_at_handshake :
    startTLSServerTLSConfig true = .ok agentTLSConfig ∧
    agentTLSConfig.clientAuth = .noClientCert ∧
    agentTLSConfig.clientCAs = none ∧
    handshakeRequiresClientCert agentTLSConfig.clientAuth = false ∧
    handshakeVerifiesClientCert agentTLSConfig.clientAuth = false ∧
    MTLSAuthHandle true (fun _ => false) (some []) =
      .abortJSON 401 "CLIENT_CERT_REQUIRED" ∧
    MTLSAuthHandle true (fun _ => false) (some [{ cn := "other-authority-client" }]) =
      .abortJSON 401 "CERT_VERIFICATION_FAILED" := by
  exact ⟨rfl, rfl, rfl, rfl, rfl, rfl, rfl⟩

/-- A crypto environment in which every parse succeeds: inlined PEM
fields are present and parsable, file loads succeed, bundles split into
nothing. -/
def envAllOk : CryptoEnv :=
  { x509KeyPair := fun _ _ => true
  , loadX509KeyPair := fun _ _ => true
  , appendCertsFromPEM := fun _ => true
  , readFile := fun _ => some "CA PEM DATA"
  , splitPEMBundle := fun _ => ("", "", "")
  , unmarshalMTLS := fun _ =>
      { certFile := "", keyFile := "", caFile := ""
      , certPem := "CLIENT CERT PEM", keyPem := "CLIENT KEY PEM", caPem := "CA PEM" }
  , unmarshalToken := fun s => some s }

/-- The http.Client built for a mutual-TLS node: 30-second timeout,
transport pinned to TLS 1.3 minimum. -/
def mtlsClient30 : HTTPClientModel :=
  { timeoutSec := 30, tlsMinVersion := some versionTLS13 }

/-- C7 counterexample: the connector built for a mutual-TLS node applies
one shared 30-second client timeout to every operation — the health and
info deadlines equal the restart, backup and engine-install deadlines, so
there is no pair of a bulk operation and a health check where the health
check deadline is strictly shorter. -/
theorem c7_no_timeout_buckets :
    createMTLSClient envAllOk "authdata" = .ok mtlsClient30 ∧
    doRequestTimeoutSec mtlsClient30 .getHealth = 30 ∧
    doRequestTimeoutSec mtlsClient30 .getServerInfo = 30 ∧
    doRequestTimeoutSec mtlsClient30 .addInbound = 30 ∧
    doRequestTimeoutSec mtlsClient30 .restartXray = 30 ∧
    doRequestTimeoutSec mtlsClient30 .backupDatabase = 30 ∧
    doRequestTimeoutSec mtlsClient30 .installXray = 30 ∧
    ¬ doRequestTimeoutSec mtlsClient30 .getHealth <
        doRequestTimeoutSec mtlsClient30 .restartXray ∧
    ¬ doRequestTimeoutSec mtlsClient30 .getHealth <
        doRequestTimeoutSec mtlsClient30 .backupDatabase ∧
    ¬ doRequestTimeoutSec mtlsClient30 .getHealth <
        doRequestTimeoutSec mtlsClient30 .installXray ∧
    ¬ doRequestTimeoutSec mtlsClient30 .getServerInfo <
        doRequestTimeoutSec mtlsClient30 .installXray := by
  refine ⟨rfl, rfl, rfl, rfl, rfl, rfl, rfl, ?_, ?_, ?_, ?_⟩ <;> decide

/-- Every successful mtlsFinalize yields the 30-second TLS 1.3 client. -/
theorem mtlsFinalize_ok_eq (cert caCertPool : Bool) (client : HTTPClientModel)
    (h : mtlsFinalize cert caCertPool = .ok client) : client = mtlsClient30 := by
  unfold mtlsFinalize at h
  split_ifs at h with h1 h2
  cases h
  rfl

/-- Every client createMTLSClient constructs carries the shared 30-second
timeout. -/
theorem createMTLSClient_ok_eq (env : CryptoEnv) (raw : String)
    (client : HTTPClientModel) (h : createMTLSClient env raw = .ok client) :
    client = mtlsClient30 := by
  unfold createMTLSClient at h
  cases hc1 : inlineCertStage env (env.unmarshalMTLS raw) with
  | error e => simp [hc1] at h
  | ok cert =>
  simp only [hc1] at h
  cases hc2 : inlineCAStage env (env.unmarshalMTLS raw) with
  | error e => simp [hc2] at h
  | ok caPool =>
  simp only [hc2] at h
  cases hc3 : filePairStage env (env.unmarshalMTLS raw) cert with
  | error e => simp [hc3] at h
  | ok cert2 =>
  simp only [hc3] at h
  cases hc4 : fileCAStage env (env.unmarshalMTLS raw) caPool with
  | error e => simp [hc4] at h
  | ok caPool2 =>
  simp only [hc4] at h
  cases hc5 : bundleStage env raw cert2 caPool2 with
  | error e => simp [hc5] at h
  | ok pr =>
  obtain ⟨pc, pp⟩ := pr
  simp only [hc5] at h
  exact mtlsFinalize_ok_eq pc pp client h

/-- C7 amended: the Remote Executor applies no per-operation-class
timeout buckets — every operation on a constructed client (mutual-TLS or
bearer-token) runs under the same 30-second client timeout, and the
shorter health and info deadlines come only from caller contexts (the
health monitor defaults: 10 s per check, 5 s per info refresh). -/
theorem c7_uniform_timeout (env : CryptoEnv) (raw : String)
    (client : HTTPClientModel) (op bulk : RemoteOp)
    (h : createMTLSClient env raw = .ok client ∨
      (∃ tok, createJWTClient env raw = .ok (client, tok))) :
    doRequestTimeoutSec client op = 30 ∧
    doRequestTimeoutSec client op = doRequestTimeoutSec client bulk ∧
    (loadHealthConfig (fun _ => "")).checkTimeoutSec = 10 ∧
    (loadHealthConfig (fun _ => "")).infoTimeoutSec = 5 := by
  have ht : client.timeoutSec = 30 := by
    rcases h with h | ⟨tok, h⟩
    · rw [createMTLSClient_ok_eq env raw client h]
      rfl
    · unfold createJWTClient at h
      by_cases hz : jwtTokenOf env raw = ""
      · rw [if_pos hz] at h
        exact absurd h (by simp)
      · rw [if_neg hz] at h
        cases h
        rfl
  refine ⟨ht, ?_, rfl, rfl⟩
  unfold doRequestTimeoutSec
  rfl

/-- Witness for C7 amended, on the concretely constructed mTLS client. -/
theorem c7_uniform_timeout_witness :
    doRequestTimeoutSec mtlsClient30 .getHealth = 30 ∧
    doRequestTimeoutSec mtlsClient30 .getHealth =
      doRequestTimeoutSec mtlsClient30 .restartXray ∧
    (loadHealthConfig (fun _ => "")).checkTimeoutSec = 10 ∧
    (loadHealthConfig (fun _ => "")).infoTimeoutSec = 5 :=
  c7_uniform_timeout envAllOk "authdata" mtlsClient30 .getHealth .restartXray
    (.inl (by rfl))

/-- The accepted health-monitor concurrency bound always lies in 1..100,
and defaults to 10 when the environment variable is unset. -/
theorem loadHealthConfig_maxConcurrency_bounds (env : String → String) :
    1 ≤ (loadHealthConfig env).maxConcurrency ∧
    (loadHealthConfig env).maxConcurrency ≤ 100 ∧
    (env "HEALTH_MAX_CONCURRENCY" = "" → (loadHealthConfig env).maxConcurrency = 10) := by
  unfold loadHealthConfig
  dsimp only
  repeat' split
  all_goals simp_all
  all_goals omega

/-- Along every interleaving of a health-check cycle, the semaphore
occupancy equals the number of checks in flight and never exceeds the
bound. -/
theorem poolReachable_invariant (cap n : Nat) (s : PoolState)
    (h : PoolReachable cap n s) : s.sem = s.running ∧ s.sem ≤ cap := by
  induction h with
  | refl => exact ⟨rfl, Nat.zero_le _⟩
  | tail hrt hstep ih =>
    cases hstep with
    | acquire h1 h2 =>
      refine ⟨?_, ?_⟩ <;> dsimp only <;> omega
    | release hr =>
      refine ⟨?_, ?_⟩ <;> dsimp only <;> omega

/-- C4: in every reachable state of a health-monitor cycle, for every
fleet size n, the number of in-flight checks never exceeds the configured
bound; the bound is accepted from configuration only within 1..100 and
defaults to 10. -/
theorem c4_concurrency_bounded (env : String → String) (n : Nat) (s : PoolState)
    (h : PoolReachable (loadHealthConfig env).maxConcurrency n s) :
    s.running ≤ (loadHealthConfig env).maxConcurrency ∧
    1 ≤ (loadHealthConfig env).maxConcurrency ∧
    (loadHealthConfig env).maxConcurrency ≤ 100 ∧
    (env "HEALTH_MAX_CONCURRENCY" = "" → (loadHealthConfig env).maxConcurrency = 10) := by
  have hinv := poolReachable_invariant _ n s h
  have hb := loadHealthConfig_maxConcurrency_bounds env
  exact ⟨by omega, hb.1, hb.2.1, hb.2.2⟩

/-- Witness for C4: with the default configuration (bound 10) and a fleet
of 25 remote nodes, a state with one check in flight is reachable and the
invariant holds there. -/
theorem c4_concurrency_bounded_witness :
    PoolReachable (loadHealthConfig (fun _ => "")).maxConcurrency 25
      { waiting := 24, running := 1, done := 0, sem := 1 } ∧
    ({ waiting := 24, running := 1, done := 0, sem := 1 } : PoolState).running ≤
      (loadHealthConfig (fun _ => "")).maxConcurrency := by
  have hstep : PoolStep (loadHealthConfig (fun _ => "")).maxConcurrency (initPool 25)
      { waiting := 24, running := 1, done := 0, sem := 1 } :=
    PoolStep.acquire (initPool 25) (by decide) (by decide)
  have hreach : PoolReachable (loadHealthConfig (fun _ => "")).maxConcurrency 25
      { waiting := 24, running := 1, done := 0, sem := 1 } :=
    Relation.ReflTransGen.single hstep
  exact ⟨hreach, (c4_concurrency_bounded (fun _ => "") 25 _ hreach).1⟩

/-- k consecutive failed checks of one node: recordFailure iterated k
times. -/
def failStreak (f : Int → Nat) (serverId : Int) : Nat → (Int → Nat)
  | 0 => f
  | k + 1 => recordFailure (failStreak f serverId k) serverId

/-- Each failed check adds exactly one to the counter of the checked
node. -/
theorem failStreak_eval (f : Int → Nat) (serverId : Int) (k : Nat) :
    failStreak f serverId k serverId = f serverId + k := by
  induction k with
  | zero => rfl
  | succ k ih =>
    show recordFailure (failStreak f serverId k) serverId serverId = f serverId + (k + 1)
    unfold recordFailure
    rw [if_pos rfl, ih]
    omega

/-- C6: the counter of a node is incremented by exactly one on either
failed path of a check (connector failure included), reset to zero on a
successful check; other nodes are never touched; k consecutive failures
from zero leave the counter at k, and the counter never decreases while
failures continue. -/
theorem c6_failure_counter (f : Int → Nat) (serverId other : Int) (msg : String)
    (st v xv : String) (info : Option (String × String × String)) (k : Nat)
    (h0 : f serverId = 0) (hne : other ≠ serverId) :
    checkServerFailures f serverId (.connectorError msg) serverId = f serverId + 1 ∧
    checkServerFailures f serverId (.healthError msg) serverId = f serverId + 1 ∧
    checkServerFailures f serverId (.healthOk st v xv info) serverId = 0 ∧
    checkServerFailures f serverId (.connectorError msg) other = f other ∧
    checkServerFailures f serverId (.healthError msg) other = f other ∧
    checkServerFailures f serverId (.healthOk st v xv info) other = f other ∧
    failStreak f serverId k serverId = k ∧
    (∀ j : Nat, failStreak f serverId j serverId ≤ failStreak f serverId (j + 1) serverId) := by
  refine ⟨?_, ?_, ?_, ?_, ?_, ?_, ?_, ?_⟩
  · simp [checkServerFailures, recordFailure]
  · simp [checkServerFailures, recordFailure]
  · simp [checkServerFailures, resetFailure]
  · simp [checkServerFailures, recordFailure, hne]
  · simp [checkServerFailures, recordFailure, hne]
  · simp [checkServerFailures, resetFailure, hne]
  · rw [failStreak_eval, h0]
    omega
  · intro j
    rw [failStreak_eval, failStreak_eval]
    omega

/-- Witness for C6: from a clean counter map, one connector failure puts
node 2 at 1, five consecutive failures put it at 5, a success resets it,
and node 3 is untouched throughout. -/
theorem c6_failure_counter_witness :
    checkServerFailures (fun _ => 0) 2 (.connectorError "connection refused") 2 = 1 ∧
    checkServerFailures (fun _ => 0) 2 (.healthOk "online" "v1" "v1" none) 2 = 0 ∧
    checkServerFailures (fun _ => 0) 2 (.connectorError "connection refused") 3 = 0 ∧
    failStreak (fun _ => 0) 2 5 2 = 5 := by
  have h := c6_failure_counter (fun _ => 0) 2 3 "connection refused"
    "online" "v1" "v1" none 5 rfl (by decide)
  exact ⟨h.1, h.2.2.1, h.2.2.2.1, h.2.2.2.2.2.2.1⟩

/-- Whether a check outcome is the success path of checkServer. -/
def CheckOutcome.isSuccess : CheckOutcome → Bool
  | .healthOk _ _ _ _ => true
  | _ => false

/-- A status write stamps the row with the write time, the status, and
the given last-error (empty when the argument is empty). -/
theorem UpdateServerStatus_row (db : DB) (id : Int) (st le : String) (now : Int) :
    ∀ s ∈ (UpdateServerStatus db id st le now).servers, s.id = id →
      s.lastSeen = now ∧ s.status = st ∧
      s.lastError = (if le ≠ "" then le else "") := by
  intro s hs hid
  unfold UpdateServerStatus at hs
  simp only [List.mem_map] at hs
  obtain ⟨t, ht, rfl⟩ := hs
  by_cases h : t.id = id
  · simp [h]
  · simp only [if_neg h] at hid ⊢
    exact absurd hid h

/-- A metadata write never touches status, last-seen or last-error. -/
theorem UpdateServerMetadata_row (db : DB) (id : Int) (v xv os : String) (now : Int) :
    ∀ s ∈ (UpdateServerMetadata db id v xv os now).servers,
      ∃ t ∈ db.servers, s.id = t.id ∧ s.lastSeen = t.lastSeen ∧
        s.lastError = t.lastError ∧ s.status = t.status := by
  intro s hs
  unfold UpdateServerMetadata at hs
  simp only [List.mem_map] at hs
  obtain ⟨t, ht, rfl⟩ := hs
  refine ⟨t, ht, ?_⟩
  by_cases h : t.id = id <;> simp [h]

/-- C10: every registry write a check performs stamps the checked row
with the check time as last-seen, on failed outcomes as well as
successful ones, and a successful check overwrites last-error with the
empty string. -/
theorem c10_status_writes (db : DB) (server : Server) (o : CheckOutcome) (now : Int) :
    ∀ s ∈ (checkServerDB db server o now).servers, s.id = server.id →
      s.lastSeen = now ∧ (o.isSuccess = true → s.lastError = "") := by
  intro s hs hid
  cases o with
  | connectorError msg =>
    have h := UpdateServerStatus_row db server.id "error"
      ("Failed to create connector: " ++ msg) now s hs hid
    exact ⟨h.1, fun hc => Bool.noConfusion hc⟩
  | healthError msg =>
    have h := UpdateServerStatus_row db server.id "offline"
      ("Health check failed: " ++ msg) now s hs hid
    exact ⟨h.1, fun hc => Bool.noConfusion hc⟩
  | healthOk st v xv info =>
    have P1 : ∀ s2 ∈ (UpdateServerStatus db server.id st "" now).servers,
        s2.id = server.id → s2.lastSeen = now ∧ s2.lastError = "" := by
      intro s2 hs2 hid2
      have h := UpdateServerStatus_row db server.id st "" now s2 hs2 hid2
      exact ⟨h.1, by simpa using h.2.2⟩
    have Pmd : ∀ (dbX : DB) (id2 : Int) (v2 xv2 os2 : String),
        (∀ s2 ∈ dbX.servers, s2.id = server.id → s2.lastSeen = now ∧ s2.lastError = "") →
        ∀ s2 ∈ (UpdateServerMetadata dbX id2 v2 xv2 os2 now).servers,
          s2.id = server.id → s2.lastSeen = now ∧ s2.lastError = "" := by
      intro dbX id2 v2 xv2 os2 hP s2 hs2 hid2
      obtain ⟨t, ht, hid', hseen, herr, _⟩ :=
        UpdateServerMetadata_row dbX id2 v2 xv2 os2 now s2 hs2
      have hpt := hP t ht (hid' ▸ hid2)
      exact ⟨hseen.trans hpt.1, herr.trans hpt.2⟩
    have P2 : ∀ s2 ∈ (if v ≠ "" ∨ xv ≠ "" then
        (match GetServer (UpdateServerStatus db server.id st "" now) server.id with
          | .ok cur => UpdateServerMetadata (UpdateServerStatus db server.id st "" now)
              server.id v xv cur.osInfo now
          | .error _ => UpdateServerStatus db server.id st "" now)
        else UpdateServerStatus db server.id st "" now).servers,
        s2.id = server.id → s2.lastSeen = now ∧ s2.lastError = "" := by
      by_cases hmv : v ≠ "" ∨ xv ≠ ""
      · rw [if_pos hmv]
        cases GetServer (UpdateServerStatus db server.id st "" now) server.id with
        | ok cur => exact Pmd _ server.id v xv cur.osInfo P1
        | error e => exact P1
      · rw [if_neg hmv]
        exact P1
    unfold checkServerDB at hs
    dsimp only at hs
    by_cases hv : server.version = "" ∨ server.xrayVersion = ""
    · rw [if_pos hv] at hs
      cases info with
      | some res =>
        exact ⟨(Pmd _ server.id res.1 res.2.1 res.2.2 P2 s hs hid).1,
          fun _ => (Pmd _ server.id res.1 res.2.1 res.2.2 P2 s hs hid).2⟩
      | none =>
        exact ⟨(P2 s hs hid).1, fun _ => (P2 s hs hid).2⟩
    · rw [if_neg hv] at hs
      exact ⟨(P2 s hs hid).1, fun _ => (P2 s hs hid).2⟩

/-- The row of node 2 after a successful check of dbC3 at time 500. -/
def remoteNodeAAfterCheck : Server :=
  { remoteNodeA with
      status := "online"
      lastSeen := 500
      updatedAt := 500
      lastError := ""
      version := "v2"
      xrayVersion := "v1" }

/-- Witness for C10 on the concrete fleet dbC3: after a successful check
of node 2 at time 500, its row carries last-seen 500 and an empty
last-error. -/
theorem c10_status_writes_witness :
    remoteNodeAAfterCheck ∈
      (checkServerDB dbC3 remoteNodeA (.healthOk "online" "v2" "v1" none) 500).servers ∧
    remoteNodeAAfterCheck.lastSeen = 500 ∧ remoteNodeAAfterCheck.lastError = "" := by
  have hmem : remoteNodeAAfterCheck ∈
      (checkServerDB dbC3 remoteNodeA (.healthOk "online" "v2" "v1" none) 500).servers := by
    decide
  have h := c10_status_writes dbC3 remoteNodeA (.healthOk "online" "v2" "v1" none) 500
    remoteNodeAAfterCheck hmem (by decide)
  exact ⟨hmem, h.1, h.2 rfl⟩

/-- Helper: writing under a present key makes find? return the written
pair. -/
theorem find?_setBucket_eq (bs : List (String × TokenBucket)) (key : String)
    (b : TokenBucket) :
    ∀ x, List.find? (fun q => q.1 = key) bs = some x →
      List.find? (fun q => q.1 = key) (setBucket bs key b) = some (key, b) := by
  induction bs with
  | nil => intro x hx; simp at hx
  | cons p rest ih =>
    intro x hx
    by_cases hp : p.1 = key
    · unfold setBucket
      rw [List.map_cons, if_pos hp]
      exact List.find?_cons_of_pos _ (by simp)
    · unfold setBucket at ih ⊢
      rw [List.map_cons, if_neg hp]
      rw [List.find?_cons_of_neg _ (by simp [hp])] at hx ⊢
      exact ih x hx

/-- Writing a bucket under a key that is present leaves that key mapped
to the written bucket. -/
theorem lookupBucket_setBucket (bs : List (String × TokenBucket)) (key : String)
    (b : TokenBucket) (h : ∃ x, lookupBucket bs key = some x) :
    lookupBucket (setBucket bs key b) key = some b := by
  obtain ⟨x, hx⟩ := h
  unfold lookupBucket at hx ⊢
  cases hfind : List.find? (fun q => q.1 = key) bs with
  | none => rw [hfind] at hx; simp at hx
  | some pr =>
    rw [find?_setBucket_eq bs key b pr hfind]
    rfl

/-- C9: for a caller with a positive per-minute limit whose bucket holds
zero tokens: when less than one refill quantum has accrued, the request
is denied and the middleware answers HTTP 429 RATE_LIMIT_EXCEEDED; and
after at least one full minute with no intervening request, an identical
request from the same caller is allowed again. -/
theorem c9_rate_limiter_spec (rl : RateLimiter) (key : String) (b : TokenBucket)
    (now later : Nat)
    (hlim : 0 < rl.limit)
    (hb : lookupBucket rl.buckets key = some b)
    (hzero : b.tokens = 0)
    (hnorefill : ((now - b.lastRefill : Nat) : Int) * rl.limit < (nanosPerMinute : Int))
    (hwait : b.lastRefill + nanosPerMinute ≤ later) :
    (rl.allow key now).1 = false ∧
    (rl.handle key now).1 = .rejected 429 "RATE_LIMIT_EXCEEDED" ∧
    (((rl.allow key now).2).allow key later).1 = true := by
  have hnn : (0 : Int) ≤ ((now - b.lastRefill : Nat) : Int) * rl.limit :=
    mul_nonneg (Int.ofNat_nonneg _) hlim.le
  have htd : (((now - b.lastRefill : Nat) : Int) * rl.limit).tdiv (nanosPerMinute : Int) = 0 := by
    rw [Int.tdiv_eq_ediv hnn (by norm_num [nanosPerMinute])]
    exact Int.ediv_eq_zero_of_lt hnn hnorefill
  have hdeny : rl.allow key now = (false, { rl with buckets := setBucket rl.buckets key b }) := by
    unfold RateLimiter.allow
    rw [hb]
    simp [htd, hzero]
  have hrej : (rl.handle key now).1 = .rejected 429 "RATE_LIMIT_EXCEEDED" := by
    simp [RateLimiter.handle, hdeny]
  have hlk2 : lookupBucket (setBucket rl.buckets key b) key = some b :=
    lookupBucket_setBucket rl.buckets key b ⟨b, hb⟩
  have hallow : (({ rl with buckets := setBucket rl.buckets key b } : RateLimiter).allow
      key later).1 = true := by
    unfold RateLimiter.allow
    rw [hlk2]
    dsimp only
    have he2 : (nanosPerMinute : Int) ≤ ((later - b.lastRefill : Nat) : Int) := by
      have : nanosPerMinute ≤ later - b.lastRefill := by omega
      exact_mod_cast this
    have hnn2 : (0 : Int) ≤ ((later - b.lastRefill : Nat) : Int) * rl.limit :=
      mul_nonneg (Int.ofNat_nonneg _) hlim.le
    have hta : rl.limit ≤
        (((later - b.lastRefill : Nat) : Int) * rl.limit).tdiv (nanosPerMinute : Int) := by
      rw [Int.tdiv_eq_ediv hnn2 (by norm_num [nanosPerMinute])]
      rw [Int.le_ediv_iff_mul_le (by norm_num [nanosPerMinute])]
      calc rl.limit * (nanosPerMinute : Int)
          = (nanosPerMinute : Int) * rl.limit := by ring
        _ ≤ ((later - b.lastRefill : Nat) : Int) * rl.limit :=
            mul_le_mul_of_nonneg_right he2 hlim.le
    have htapos : (0 : Int) <
        (((later - b.lastRefill : Nat) : Int) * rl.limit).tdiv (nanosPerMinute : Int) :=
      lt_of_lt_of_le hlim hta
    rw [if_pos htapos]
    simp only [hzero, zero_add]
    by_cases hcap : (((later - b.lastRefill : Nat) : Int) * rl.limit).tdiv
        (nanosPerMinute : Int) > rl.limit
    · rw [if_pos hcap, if_pos hlim]
    · rw [if_neg hcap, if_pos htapos]
  refine ⟨by rw [hdeny], hrej, by rw [hdeny]; exact hallow⟩

/-- The rate-limiter state of the C9 witness: limit 2 per minute, one
caller with an empty bucket last refilled at time 0. -/
def rlW : RateLimiter :=
  { limit := 2, buckets := [("203.0.113.7", { tokens := 0, lastRefill := 0 })] }

/-- Witness for C9: with an empty bucket, a request at t = 1000 ns is
rejected with 429 RATE_LIMIT_EXCEEDED, and a request one minute later is
allowed. -/
theorem c9_rate_limiter_spec_witness :
    (rlW.allow "203.0.113.7" 1000).1 = false ∧
    (rlW.handle "203.0.113.7" 1000).1 = .rejected 429 "RATE_LIMIT_EXCEEDED" ∧
    (((rlW.allow "203.0.113.7" 1000).2).allow "203.0.113.7" 60000000000).1 = true := by
  exact c9_rate_limiter_spec rlW "203.0.113.7" { tokens := 0, lastRefill := 0 }
    1000 60000000000 (by norm_num [rlW]) (by rfl) rfl
    (by norm_num [nanosPerMinute, rlW]) (by norm_num [nanosPerMinute])

/-- C8: constructing a Remote Executor for a mutual-TLS node settles the
auth material at construction time. Success cases: all three pieces
supplied and parsable as inlined PEM fields, as file paths, or as a
single pasted PEM bundle each yield a constructed connector. Failure
cases: material supplying no certificate at all, an unparsable inlined
pair, or a certificate without any CA, are construction-time errors of
NewRemoteConnector (never deferred to a later call). -/
theorem c8_mtls_construction (env : CryptoEnv) (server : Server)
    (hmtls : server.authType = "mtls") :
    ((env.unmarshalMTLS server.authData).certPem ≠ "" →
     (env.unmarshalMTLS server.authData).keyPem ≠ "" →
     (env.unmarshalMTLS server.authData).caPem ≠ "" →
     env.x509KeyPair (env.unmarshalMTLS server.authData).certPem
       (env.unmarshalMTLS server.authData).keyPem = true →
     env.appendCertsFromPEM (env.unmarshalMTLS server.authData).caPem = true →
     exOk (NewRemoteConnector env server) = true) ∧
    ((env.unmarshalMTLS server.authData).certPem = "" →
     (env.unmarshalMTLS server.authData).keyPem = "" →
     (env.unmarshalMTLS server.authData).caPem = "" →
     (env.unmarshalMTLS server.authData).certFile ≠ "" →
     (env.unmarshalMTLS server.authData).keyFile ≠ "" →
     (env.unmarshalMTLS server.authData).caFile ≠ "" →
     env.loadX509KeyPair (env.unmarshalMTLS server.authData).certFile
       (env.unmarshalMTLS server.authData).keyFile = true →
     ∀ caData, env.readFile (env.unmarshalMTLS server.authData).caFile = some caData →
       env.appendCertsFromPEM caData = true →
       exOk (NewRemoteConnector env server) = true) ∧
    (env.unmarshalMTLS server.authData = emptyMTLSAuthFields →
     ∀ cp kp ca, env.splitPEMBundle server.authData = (cp, kp, ca) →
       cp ≠ "" → kp ≠ "" → ca ≠ "" →
       env.x509KeyPair cp kp = true → env.appendCertsFromPEM ca = true →
       exOk (NewRemoteConnector env server) = true) ∧
    (env.unmarshalMTLS server.authData = emptyMTLSAuthFields →
     env.splitPEMBundle server.authData = ("", "", "") →
     NewRemoteConnector env server =
       .error "failed to create HTTP client: invalid mTLS auth data: client cert/key not provided") ∧
    ((env.unmarshalMTLS server.authData).certPem ≠ "" →
     (env.unmarshalMTLS server.authData).keyPem ≠ "" →
     env.x509KeyPair (env.unmarshalMTLS server.authData).certPem
       (env.unmarshalMTLS server.authData).keyPem = false →
     NewRemoteConnector env server =
       .error "failed to create HTTP client: failed to parse inlined client certificate") ∧
    ((env.unmarshalMTLS server.authData).certPem ≠ "" →
     (env.unmarshalMTLS server.authData).keyPem ≠ "" →
     env.x509KeyPair (env.unmarshalMTLS server.authData).certPem
       (env.unmarshalMTLS server.authData).keyPem = true →
     (env.unmarshalMTLS server.authData).caPem = "" →
     (env.unmarshalMTLS server.authData).caFile = "" →
     env.splitPEMBundle server.authData = ("", "", "") →
     NewRemoteConnector env server =
       .error "failed to create HTTP client: invalid mTLS auth data: CA certificate not provided") := by
  refine ⟨?_, ?_, ?_, ?_, ?_, ?_⟩
  · intro h1 h2 h3 hx hca
    have hc : createMTLSClient env server.authData = .ok mtlsClient30 := by
      simp [createMTLSClient, inlineCertStage, inlineCAStage, filePairStage,
        fileCAStage, bundleStage, mtlsFinalize, mtlsClient30, h1, h2, h3, hx, hca]
    simp [NewRemoteConnector, hmtls, hc, exOk]
  · intro h1 h2 h3 h4 h5 h6 hl caData hr hca
    have hc : createMTLSClient env server.authData = .ok mtlsClient30 := by
      simp [createMTLSClient, inlineCertStage, inlineCAStage, filePairStage,
        fileCAStage, bundleStage, mtlsFinalize, mtlsClient30,
        h1, h2, h3, h4, h5, h6, hl, hr, hca]
    simp [NewRemoteConnector, hmtls, hc, exOk]
  · intro hempty cp kp ca hsplit hcp hkp hca hx hac
    have hc : createMTLSClient env server.authData = .ok mtlsClient30 := by
      simp [createMTLSClient, inlineCertStage, inlineCAStage, filePairStage,
        fileCAStage, bundleStage, mtlsFinalize, mtlsClient30,
        hempty, emptyMTLSAuthFields, hsplit, hcp, hkp, hca, hx, hac]
    simp [NewRemoteConnector, hmtls, hc, exOk]
  · intro hempty hsplit
    have hc : createMTLSClient env server.authData =
        .error "invalid mTLS auth data: client cert/key not provided" := by
      simp [createMTLSClient, inlineCertStage, inlineCAStage, filePairStage,
        fileCAStage, bundleStage, mtlsFinalize, hempty, emptyMTLSAuthFields, hsplit]
    simp [NewRemoteConnector, hmtls, hc]
  · intro h1 h2 hx
    have hc : createMTLSClient env server.authData =
        .error "failed to parse inlined client certificate" := by
      simp [createMTLSClient, inlineCertStage, h1, h2, hx]
    simp [NewRemoteConnector, hmtls, hc]
  · intro h1 h2 hx h3 h4 hsplit
    have hc : createMTLSClient env server.authData =
        .error "invalid mTLS auth data: CA certificate not provided" := by
      simp [createMTLSClient, inlineCertStage, inlineCAStage, filePairStage,
        fileCAStage, bundleStage, mtlsFinalize, h1, h2, hx, h3, h4, hsplit]
    simp [NewRemoteConnector, hmtls, hc]

/-- Witness for C8: the inlined-PEM success case on the concrete node
remoteNodeA under an environment where all material parses, and the
missing-material failure case under an environment where the auth data
yields nothing. -/
theorem c8_mtls_construction_witness :
    exOk (NewRemoteConnector envAllOk remoteNodeA) = true := by
  exact (c8_mtls_construction envAllOk remoteNodeA rfl).1
    (by decide) (by decide) (by decide) rfl rfl

end ThreeXUI
